import Mathlib

/-!
Shallow embedding of the food-ordering service (`src/models/models.py`,
`src/services/services.py`).

Money is modelled as `ℚ` (the Python source uses `float`; all the concrete
amounts in play are decimal, and Python's `round(x, 2)` half-to-even rounding
is modelled exactly on `ℚ`).  Timestamps (`datetime.utcnow()`) and the random
UUID suffixes are nondeterministic inputs of the environment; they are passed
to the embedded operations as explicit parameters.  The in-memory dict
`self.orders` (Python dicts preserve insertion order) is modelled as an
association list in insertion order.
-/

/-- `models.py`: `OrderItem` (pydantic model). -/
structure OrderItem where
  menu_item_id : Int
  name : String
  quantity : Int
  price : ℚ
  modifiers : List String
deriving DecidableEq, Repr

/-- `models.py`: `OrderRequest` (pydantic model). -/
structure OrderRequest where
  customer_name : String
  customer_phone : String
  items : List OrderItem
  delivery_address : Option String := none
  is_delivery : Bool := false
  special_instructions : Option String := none
deriving DecidableEq, Repr

/-- `models.py`: `OrderResponse`.  `created_at` (a `datetime`) is modelled as
an opaque `Nat` tick supplied by the environment. -/
structure OrderResponse where
  order_id : String
  status : String
  total_amount : ℚ
  discount_amount : ℚ
  final_amount : ℚ
  estimated_minutes : Int
  created_at : Nat
  customer_name : String
  customer_phone : String
  items : List OrderItem
  is_delivery : Bool
  delivery_address : Option String := none
  special_instructions : Option String := none
deriving DecidableEq, Repr

/-- `models.py`: `MenuItem`. -/
structure MenuItem where
  id : Int
  name : String
  category : String
  description : Option String
  price : ℚ
  available : Bool := true
  preparation_minutes : Int
deriving DecidableEq, Repr

/-- `models.py`: `MenuResponse`. -/
structure MenuResponse where
  categories : List String
  items : List MenuItem
deriving DecidableEq, Repr

/-! ### Pydantic request validation (`models.py`)

Pydantic v1 validates the fields of `OrderRequest` in declaration order:
`customer_name`, `customer_phone`, `items`, `delivery_address`,
`is_delivery`, `special_instructions`.  A `@validator('f')` receives in
`values` only the fields already validated, i.e. the ones declared BEFORE
`f`; in particular `validate_delivery_address` runs on `delivery_address`,
which is declared before `is_delivery`, so `values.get('is_delivery')`
yields `None` there.  A validator without `always=True` is skipped entirely
when the field is absent and its default is used. -/

/-- A character allowed by the phone pattern `^[\d\s\-\+\(\)]{5,20}$`
(`\s` is modelled by the six ASCII whitespace characters). -/
def isPhoneChar (c : Char) : Bool :=
  c.isDigit || c = ' ' || c = '\t' || c = '\n' || c = '\r' ||
    c = '\x0b' || c = '\x0c' || c = '-' || c = '+' || c = '(' || c = ')'

/-- `validate_phone`: `re.match(r'^[\d\s\-\+\(\)]{5,20}$', v)`. -/
def validate_phone (v : String) : Bool :=
  5 ≤ v.length && v.length ≤ 20 && v.data.all isPhoneChar

/-- The body of `validate_delivery_address(cls, v, values)` as written:
`if values.get('is_delivery') and not v: raise`.  The first argument is
what `values.get('is_delivery')` yields when the validator runs (Python
truthiness: `None` and `False` are falsy, and so are `None` and `""` for
`v`).  Because of the field declaration order it is always `none` in the
actual model (see the section comment). -/
def validate_delivery_address (is_delivery_in_values : Option Bool)
    (v : Option String) : Bool :=
  match is_delivery_in_values with
  | some true =>
    match v with
    | none => false
    | some s => !(s = "")
  | _ => true

/-- Field constraints of `OrderItem`:
`menu_item_id > 0`, `2 ≤ len(name) ≤ 100`, `0 < quantity ≤ 20`, `price > 0`. -/
def validItem (i : OrderItem) : Bool :=
  0 < i.menu_item_id && 2 ≤ i.name.length && i.name.length ≤ 100 &&
    0 < i.quantity && i.quantity ≤ 20 && 0 < i.price

/-- Whether an `OrderRequest` passes pydantic validation, exactly as the
declared fields, field validators and declaration order make it behave.
`validate_delivery_address` is invoked with `none` for
`values.get('is_delivery')` (field order), and only when the field was
supplied; either way it never rejects. -/
def validRequest (r : OrderRequest) : Bool :=
  2 ≤ r.customer_name.length && r.customer_name.length ≤ 100 &&
  5 ≤ r.customer_phone.length && r.customer_phone.length ≤ 20 &&
  validate_phone r.customer_phone &&
  r.items.all validItem &&
  (match r.delivery_address with
   | none => true
   | some a => validate_delivery_address none (some a)) &&
  !r.items.isEmpty

/-! ### Python `round(x, 2)` on exact rationals -/

/-- Round a rational to the nearest integer, ties to even (Python 3
`round`). -/
def roundHalfEven (q : ℚ) : ℤ :=
  let f : ℤ := ⌊q⌋
  let r : ℚ := q - f
  if r < 1/2 then f
  else if 1/2 < r then f + 1
  else if f % 2 = 0 then f else f + 1

/-- Python `round(x, 2)`. -/
def round2 (q : ℚ) : ℚ := (roundHalfEven (q * 100) : ℚ) / 100

/-! ### `services.py`: `OrderService` -/

/-- The menu built in `OrderService.__init__` (`self.menu_items`); read-only
afterwards. -/
def menu_items : List MenuItem :=
  [ { id := 101, name := "Пицца Маргарита", category := "pizza",
      description := some "Томаты, моцарелла, базилик",
      price := 650, preparation_minutes := 25 },
    { id := 102, name := "Пицца Пепперони", category := "pizza",
      description := some "Пепперони, моцарелла, томатный соус",
      price := 750, preparation_minutes := 25 },
    { id := 201, name := "Салат Цезарь", category := "salad",
      description := some "Курица, салат, гренки, соус Цезарь",
      price := 350, preparation_minutes := 15 },
    { id := 301, name := "Кола", category := "drink",
      description := some "0.5л", price := 150, preparation_minutes := 5 },
    { id := 302, name := "Кофе Латте", category := "drink",
      description := some "350мл", price := 250, preparation_minutes := 10 },
    { id := 401, name := "Тирамису", category := "dessert",
      description := some "Классический итальянский десерт",
      price := 300, preparation_minutes := 5 } ]

/-- `self.delivery_fee = 200.00`. -/
def delivery_fee_const : ℚ := 200

/-- `self.discount_threshold = 1000.00`. -/
def discount_threshold : ℚ := 1000

/-- `self.discount_percent = 10`. -/
def discount_percent : ℚ := 10

/-- The mutable state of `OrderService`: `self.orders`, a dict from order id
to `OrderResponse`, kept in insertion order. -/
structure OrderService where
  orders : List (String × OrderResponse)
deriving DecidableEq, Repr

/-- The fresh service (`OrderService.__init__`: `self.orders = {}`). -/
def OrderService.init : OrderService := { orders := [] }

/-- Python dict assignment `d[k] = v`: replace in place if the key is
present, else append. -/
def dictInsert (l : List (String × OrderResponse)) (k : String)
    (v : OrderResponse) : List (String × OrderResponse) :=
  if l.any (fun p => p.1 = k) then
    l.map (fun p => if p.1 = k then (k, v) else p)
  else l ++ [(k, v)]

/-- `_validate_menu_items`: raises `ValueError` on the first line item whose
`menu_item_id` is not among the menu ids. -/
def validate_menu_items (items : List OrderItem) : Except String Unit :=
  if items.all (fun oi => menu_items.any (fun m => m.id = oi.menu_item_id))
  then .ok ()
  else .error "Позиция отсутствует в меню"

/-- `_calculate_items_total`: `sum(item.price * item.quantity)`. -/
def calculate_items_total (items : List OrderItem) : ℚ :=
  (items.map (fun i => i.price * (i.quantity : ℚ))).sum

/-- `_calculate_discount`. -/
def calculate_discount (subtotal : ℚ) : ℚ :=
  if discount_threshold ≤ subtotal then subtotal * (discount_percent / 100)
  else 0

/-- The loop of `_calculate_estimated_time`: `items_time` starts at 0 and
takes `max` with the preparation minutes of each line item's menu entry,
skipping items whose menu entry is missing. -/
def itemsTimeLoop (items : List OrderItem) : Int :=
  items.foldl
    (fun acc oi =>
      match menu_items.find? (fun m => m.id = oi.menu_item_id) with
      | some m => max acc m.preparation_minutes
      | none => acc) 0

/-- `_calculate_estimated_time`. -/
def calculate_estimated_time (r : OrderRequest) : Int :=
  let base_time : Int := 15
  let items_time := itemsTimeLoop r.items
  let extra_items_time := max 0 ((r.items.length : Int) - 1) * 5
  let delivery_time : Int := if r.is_delivery then 25 else 0
  base_time + items_time + extra_items_time + delivery_time

/-- `_schedule_status_updates`: the status-advancement hook is `pass` — a
no-op. -/
def schedule_status_updates (_order_id : String) (_total_minutes : Int) :
    Unit := ()

/-- `create_order`.  The generated order id (`_generate_order_id`, built
from the current date and a random UUID suffix) and the clock reading
`datetime.utcnow()` are environment inputs, passed as `order_id` and `now`.
Returns the response together with the updated store, or the raised
`ValueError`'s message. -/
def create_order (s : OrderService) (r : OrderRequest) (order_id : String)
    (now : Nat) : Except String (OrderResponse × OrderService) :=
  match validate_menu_items r.items with
  | .error e => .error e
  | .ok () =>
    let items_total := calculate_items_total r.items
    let delivery_fee := if r.is_delivery then delivery_fee_const else 0
    let subtotal := items_total + delivery_fee
    let discount := calculate_discount subtotal
    let final_amount := subtotal - discount
    let estimated_minutes := calculate_estimated_time r
    let response : OrderResponse :=
      { order_id := order_id
        status := "created"
        total_amount := round2 subtotal
        discount_amount := round2 discount
        final_amount := round2 final_amount
        estimated_minutes := estimated_minutes
        created_at := now
        customer_name := r.customer_name
        customer_phone := r.customer_phone
        items := r.items
        is_delivery := r.is_delivery
        delivery_address := r.delivery_address
        special_instructions := r.special_instructions }
    let _ := schedule_status_updates order_id estimated_minutes
    .ok (response, { orders := dictInsert s.orders order_id response })

/-- `get_order_status`: `self.orders.get(order_id)`. -/
def get_order_status (s : OrderService) (order_id : String) :
    Option OrderResponse :=
  (s.orders.find? (fun p => p.1 = order_id)).map (fun p => p.2)

/-- The in-place assignment `order.status = st` (all other fields kept). -/
def setStatus (st : String) (o : OrderResponse) : OrderResponse :=
  { o with status := st }

/-- `cancel_order`: returns the boolean result and the (possibly updated)
store.  The in-place `order.status = "cancelled"` keeps the dict position. -/
def cancel_order (s : OrderService) (order_id : String) :
    Bool × OrderService :=
  match s.orders.find? (fun p => p.1 = order_id) with
  | some p =>
    if p.2.status = "created" ∨ p.2.status = "processing" then
      (true,
        { orders := s.orders.map (fun q =>
            if q.1 = order_id then (q.1, setStatus "cancelled" q.2)
            else q) })
    else (false, s)
  | none => (false, s)

/-- `get_menu`: optional category filter, then availability filter; the
categories are deduplicated (`set(...)` — order unspecified, modelled by
`eraseDups`). -/
def get_menu (category : Option String) : MenuResponse :=
  let items : List MenuItem := match category with
    | some c => menu_items.filter (fun i => i.category = c)
    | none => menu_items
  let available_items := items.filter (fun i => i.available)
  { categories := (available_items.map (fun i => i.category)).eraseDups
    items := available_items }

/-- `get_order_history`: the orders (dict values, insertion order) whose
`customer_phone` equals the given phone. -/
def get_order_history (s : OrderService) (customer_phone : String) :
    List OrderResponse :=
  ((s.orders.map (fun p => p.2)).filter
    (fun o => o.customer_phone = customer_phone))

/-! ### `services.py`: `PaymentService` -/

/-- The structured result `process_payment` returns.  The success and
failure dicts have different keys: `amount`, `payment_method` and `error`
are therefore `Option`s, `none` meaning the key is absent from the dict. -/
structure PaymentResult where
  payment_id : String
  status : String
  amount : Option ℚ
  payment_method : Option String
  error : Option String
  transaction_time : Nat
deriving DecidableEq, Repr

/-- `process_payment`.  `uuid_hex` is the random `uuid.uuid4().hex` (32
lowercase hex characters) and `now` the clock reading, both environment
inputs.  The payment id is `"PAY-" + uuid_hex[:8].upper()`. -/
def process_payment (_order_id : String) (amount : ℚ)
    (payment_method : String) (uuid_hex : List Char) (now : Nat) :
    PaymentResult :=
  let payment_id :=
    "PAY-" ++ String.mk ((uuid_hex.take 8).map Char.toUpper)
  if 0 < amount then
    { payment_id := payment_id, status := "success", amount := some amount
      payment_method := some payment_method, error := none
      transaction_time := now }
  else
    { payment_id := payment_id, status := "failed", amount := none
      payment_method := none, error := some "Payment processing failed"
      transaction_time := now }

/-! ### Operation sequences over the service -/

/-- One invocation of a public operation of `OrderService` (with the
environment inputs an invocation consumes). -/
inductive Op where
  | create (r : OrderRequest) (order_id : String) (now : Nat)
  | cancel (order_id : String)
  | getStatus (order_id : String)
  | getMenu (category : Option String)
  | history (phone : String)
  | pay (order_id : String) (amount : ℚ) (method : String)
      (uuid_hex : List Char) (now : Nat)
deriving DecidableEq, Repr

/-- The store after one operation.  A failed `create_order` raises, leaving
the store as it was; the read-only operations return values without
touching it; `process_payment` belongs to `PaymentService`, which holds no
reference to the order store at all. -/
def step (s : OrderService) : Op → OrderService
  | .create r oid now =>
    match create_order s r oid now with
    | .ok (_, s2) => s2
    | .error _ => s
  | .cancel oid => (cancel_order s oid).2
  | .getStatus _ => s
  | .getMenu _ => s
  | .history _ => s
  | .pay _ _ _ _ _ => s

/-- The store after a sequence of operations from a given state. -/
def run (ops : List Op) (s : OrderService) : OrderService :=
  ops.foldl step s

/-! ### Spec-side formulas (the claims' own words, for comparison with the
source functions) -/

/-- Spec formula: the subtotal — sum over line items of unit price times
quantity, plus a delivery fee of 200.00 when the delivery flag is set. -/
def specSubtotal (items : List OrderItem) (is_delivery : Bool) : ℚ :=
  (items.map (fun i => i.price * (i.quantity : ℚ))).sum +
    (if is_delivery then 200 else 0)

/-- Spec formula: a 10 percent discount when the subtotal is at least
1000.00, and 0 otherwise. -/
def specDiscount (sub : ℚ) : ℚ :=
  if 1000 ≤ sub then sub * (10 / 100) else 0

/-- Spec formula: the maximum `preparation_minutes` over the referenced menu
entries, a missing entry contributing 0. -/
def specItemsTime (items : List OrderItem) : Int :=
  (items.map (fun oi =>
    match menu_items.find? (fun m => m.id = oi.menu_item_id) with
    | some m => m.preparation_minutes
    | none => 0)).foldr max 0

/-- Spec requirement on a stored order's denormalized line-item names: each
must match the catalog name of the menu item it references. -/
def itemNamesMatchCatalog (items : List OrderItem) : Prop :=
  ∀ i ∈ items, ∀ m ∈ menu_items, m.id = i.menu_item_id → i.name = m.name

/-! ### Invariants of the store -/

/-- The monetary relations an individual stored order satisfies: its three
stored amounts are the 2-decimal roundings of the pre-rounding subtotal,
discount and final amount determined by its stored line items and delivery
flag (the invariant `final = subtotal - discount` holds exactly BEFORE
rounding), and the rounded discount and final amounts are nonnegative. -/
def orderMoneyOk (o : OrderResponse) : Prop :=
  let sub := calculate_items_total o.items +
    (if o.is_delivery then delivery_fee_const else 0)
  o.total_amount = round2 sub ∧
  o.discount_amount = round2 (calculate_discount sub) ∧
  o.final_amount = round2 (sub - calculate_discount sub) ∧
  0 ≤ o.discount_amount ∧ 0 ≤ o.final_amount

/-- Every order of the store satisfies `orderMoneyOk`. -/
def moneyInv (s : OrderService) : Prop :=
  ∀ p ∈ s.orders, orderMoneyOk p.2

/-- Every order of the store has status `"created"` or `"cancelled"`. -/
def statusInv (s : OrderService) : Prop :=
  ∀ p ∈ s.orders, p.2.status = "created" ∨ p.2.status = "cancelled"

/-- Whether an operation's request input passes pydantic validation (the
transport layer constructs `OrderRequest` values only through pydantic, so
operation sequences reaching the service have this property). -/
def opValid : Op → Bool
  | .create r _ _ => validRequest r
  | _ => true

/-- Every operation of the sequence carries pydantic-validated inputs. -/
def opsValid (ops : List Op) : Prop :=
  ∀ op ∈ ops, opValid op = true

/-- The 16 characters `uuid.uuid4().hex` is built from. -/
def hexLowerChars : List Char := "0123456789abcdef".data

/-! ### Concrete inputs used to exercise the operations -/

/-- A pydantic-valid request: two Margherita pizzas, no delivery
(the spec's first test scenario). -/
def reqA : OrderRequest :=
  { customer_name := "Иван Петров", customer_phone := "+7 (900) 123-45-67",
    items := [ { menu_item_id := 101, name := "Пицца Маргарита",
                 quantity := 2, price := 650, modifiers := [] } ] }

/-- The response `create_order` builds for `reqA` with order id `"ORD-1"`
at tick 0: subtotal 1300, discount 130, final 1170, 40 minutes. -/
def respA : OrderResponse :=
  { order_id := "ORD-1", status := "created", total_amount := 1300,
    discount_amount := 130, final_amount := 1170,
    estimated_minutes := 40, created_at := 0,
    customer_name := "Иван Петров", customer_phone := "+7 (900) 123-45-67",
    items := reqA.items, is_delivery := false }

/-- A pydantic-valid delivery request with no delivery address. -/
def reqNoAddr : OrderRequest :=
  { customer_name := "Иван Петров", customer_phone := "+7 (900) 123-45-67",
    items := [ { menu_item_id := 201, name := "Салат Цезарь",
                 quantity := 1, price := 350, modifiers := [] } ],
    delivery_address := none, is_delivery := true }

/-- A pydantic-valid request referencing menu id 999, which is not in the
catalog (the spec's `ValidationError` scenario). -/
def reqUnknownItem : OrderRequest :=
  { customer_name := "Иван Петров", customer_phone := "+7 (900) 123-45-67",
    items := [ { menu_item_id := 999, name := "Неизвестное блюдо",
                 quantity := 1, price := 100, modifiers := [] } ] }

/-- A pydantic-valid request with one line item priced 1000.05: its
subtotal 1000.05 crosses the discount threshold and its discount 100.005
and final amount 900.045 land on rounding ties. -/
def reqTie : OrderRequest :=
  { customer_name := "Иван Петров", customer_phone := "+7 (900) 123-45-67",
    items := [ { menu_item_id := 101, name := "Пицца Маргарита",
                 quantity := 1, price := 20001/20, modifiers := [] } ] }

/-- The response `create_order` builds for `reqTie` with order id `"ORD-1"`
at tick 0: `round(100.005, 2) = 100.00` and `round(900.045, 2) = 900.04`
(Python rounds half to even), so `final ≠ total - discount` on the stored
rounded fields: 900.04 ≠ 1000.05 - 100.00. -/
def respTie : OrderResponse :=
  { order_id := "ORD-1", status := "created", total_amount := 20001/20,
    discount_amount := 100, final_amount := 22501/25,
    estimated_minutes := 40, created_at := 0,
    customer_name := "Иван Петров", customer_phone := "+7 (900) 123-45-67",
    items := reqTie.items, is_delivery := false }

/-- A pydantic-valid request whose line item references menu id 101 but
carries a name that does not match the catalog name of item 101. -/
def reqWrongName : OrderRequest :=
  { customer_name := "Иван Петров", customer_phone := "+7 (900) 123-45-67",
    items := [ { menu_item_id := 101, name := "Совсем не пицца",
                 quantity := 1, price := 650, modifiers := [] } ] }

/-- The response `create_order` builds for `reqWrongName`: the mismatched
name is stored verbatim. -/
def respWrongName : OrderResponse :=
  { order_id := "ORD-1", status := "created", total_amount := 650,
    discount_amount := 0, final_amount := 650,
    estimated_minutes := 40, created_at := 0,
    customer_name := "Иван Петров", customer_phone := "+7 (900) 123-45-67",
    items := reqWrongName.items, is_delivery := false }

/-- A 32-character value of `uuid.uuid4().hex`. -/
def hexA : List Char := "0123abcdef0123456789abcdef012345".data


/-- What a successful `create_order` returns: the response's fields and the
updated store, spelled out. -/
theorem create_order_ok_shape (s : OrderService) (r : OrderRequest)
    (oid : String) (now : Nat) (o : OrderResponse) (s2 : OrderService)
    (h : create_order s r oid now = Except.ok (o, s2)) :
    validate_menu_items r.items = Except.ok () ∧
    o.order_id = oid ∧ o.status = "created" ∧
    o.total_amount = round2 (calculate_items_total r.items +
      (if r.is_delivery then delivery_fee_const else 0)) ∧
    o.discount_amount = round2 (calculate_discount (calculate_items_total
      r.items + (if r.is_delivery then delivery_fee_const else 0))) ∧
    o.final_amount = round2 ((calculate_items_total r.items +
      (if r.is_delivery then delivery_fee_const else 0)) -
      calculate_discount (calculate_items_total r.items +
        (if r.is_delivery then delivery_fee_const else 0))) ∧
    o.estimated_minutes = calculate_estimated_time r ∧
    o.created_at = now ∧ o.customer_name = r.customer_name ∧
    o.customer_phone = r.customer_phone ∧ o.items = r.items ∧
    o.is_delivery = r.is_delivery ∧
    o.delivery_address = r.delivery_address ∧
    o.special_instructions = r.special_instructions ∧
    s2.orders = dictInsert s.orders oid o := by
  unfold create_order at h
  cases hv : validate_menu_items r.items with
  | error e => rw [hv] at h; exact absurd h (by simp)
  | ok u =>
    cases u
    rw [hv] at h
    simp only [Except.ok.injEq, Prod.mk.injEq] at h
    obtain ⟨ho, hs⟩ := h
    subst ho
    subst hs
    simp_all

/-- The source pricing pipeline agrees with the spec formulas symbol by
symbol. -/
theorem calc_eq_spec (items : List OrderItem) (d : Bool) :
    calculate_items_total items + (if d then delivery_fee_const else 0) =
      specSubtotal items d ∧
    (∀ q : ℚ, calculate_discount q = specDiscount q) := by
  constructor
  · simp [calculate_items_total, specSubtotal, delivery_fee_const]
  · intro q
    simp [calculate_discount, specDiscount, discount_threshold,
      discount_percent]

/-- C1: for every order request accepted by `create_order`, the returned
order's `total_amount` is the line-item subtotal plus a 200.00 delivery fee
when the delivery flag is set, `discount_amount` is 10 percent of that
subtotal when it reaches 1000.00 and 0 otherwise, `final_amount` is
subtotal minus discount, and each of the three is rounded to 2 decimal
places only in the response, from the unrounded intermediate values. -/
theorem c1_pricing_and_rounding (s : OrderService) (r : OrderRequest)
    (oid : String) (now : Nat) (o : OrderResponse) (s2 : OrderService)
    (h : create_order s r oid now = Except.ok (o, s2)) :
    o.total_amount = round2 (specSubtotal r.items r.is_delivery) ∧
    o.discount_amount =
      round2 (specDiscount (specSubtotal r.items r.is_delivery)) ∧
    o.final_amount = round2 (specSubtotal r.items r.is_delivery -
      specDiscount (specSubtotal r.items r.is_delivery)) := by
  obtain ⟨-, -, -, ht, hd, hf, -⟩ := create_order_ok_shape s r oid now o s2 h
  obtain ⟨e1, e2⟩ := calc_eq_spec r.items r.is_delivery
  rw [ht, hd, hf, e1, e2]
  exact ⟨rfl, rfl, rfl⟩

/-- `create_order` on the fresh store, applied to `reqA` ("ORD-1", tick 0),
returns `respA` and stores it. -/
theorem create_reqA :
    create_order OrderService.init reqA "ORD-1" 0 =
      Except.ok (respA, ⟨[("ORD-1", respA)]⟩) := by
  norm_num [create_order, validate_menu_items, calculate_items_total,
    calculate_discount, calculate_estimated_time, itemsTimeLoop, menu_items,
    delivery_fee_const, discount_threshold, discount_percent, round2,
    roundHalfEven, dictInsert, OrderService.init, reqA, respA]

/-- C1 at a concrete input: `reqA` (two Margherita pizzas at 650, no
delivery) yields total 1300, discount 130, final 1170. -/
theorem c1_witness :
    respA.total_amount = round2 (specSubtotal reqA.items reqA.is_delivery) ∧
    respA.discount_amount =
      round2 (specDiscount (specSubtotal reqA.items reqA.is_delivery)) ∧
    respA.final_amount = round2 (specSubtotal reqA.items reqA.is_delivery -
      specDiscount (specSubtotal reqA.items reqA.is_delivery)) :=
  c1_pricing_and_rounding OrderService.init reqA "ORD-1" 0 respA
    ⟨[("ORD-1", respA)]⟩ create_reqA


/-- Updating the value stored under key `oid` commutes with looking any key
up: the in-place `map` of `cancel_order` changes no key, only the entry
under `oid`. -/
theorem find?_key_map_update (l : List (String × OrderResponse))
    (oid k : String) (g : OrderResponse → OrderResponse) :
    (l.map (fun q => if q.1 = oid then (q.1, g q.2) else q)).find?
      (fun p => p.1 = k) =
    (l.find? (fun p => p.1 = k)).map
      (fun q => if q.1 = oid then (q.1, g q.2) else q) := by
  rw [List.find?_map]
  have hp : ((fun p : String × OrderResponse => decide (p.1 = k)) ∘
      fun q => if q.1 = oid then (q.1, g q.2) else q) =
      fun q : String × OrderResponse => decide (q.1 = k) := by
    funext q
    by_cases hq : q.1 = oid <;> simp [hq, Function.comp]
  rw [hp]


/-- C2: `cancel_order` returns `true` and sets the status to `"cancelled"`
exactly when the order exists with status `"created"` or `"processing"`;
otherwise (nonexistent id included) it returns `false` and mutates nothing;
after a successful cancel, cancelling again returns `false`, and a
`"delivered"` order is never cancellable. -/
theorem c2_cancel_semantics (s : OrderService) (oid : String) :
    ((cancel_order s oid).1 = true ↔
      ∃ o, get_order_status s oid = some o ∧
        (o.status = "created" ∨ o.status = "processing")) ∧
    ((cancel_order s oid).1 = false → (cancel_order s oid).2 = s) ∧
    ((cancel_order s oid).1 = true →
      get_order_status (cancel_order s oid).2 oid =
        (get_order_status s oid).map (setStatus "cancelled") ∧
      (∀ k, k ≠ oid →
        get_order_status (cancel_order s oid).2 k = get_order_status s k) ∧
      (cancel_order (cancel_order s oid).2 oid).1 = false) ∧
    (∀ o, get_order_status s oid = some o → o.status = "delivered" →
      (cancel_order s oid).1 = false) := by
  cases hf : s.orders.find? (fun p => p.1 = oid) with
  | none =>
    have hc : cancel_order s oid = (false, s) := by
      rw [cancel_order, hf]
    have hg : get_order_status s oid = none := by
      rw [get_order_status, hf]; rfl
    rw [hc, hg]
    simp
  | some p =>
    have hpk : p.1 = oid := by simpa using List.find?_some hf
    have hg : get_order_status s oid = some p.2 := by
      rw [get_order_status, hf]; rfl
    by_cases hst : p.2.status = "created" ∨ p.2.status = "processing"
    · -- the eligible case: the cancel succeeds
      have hc : cancel_order s oid =
          (true, ⟨s.orders.map (fun q => if q.1 = oid then
            (q.1, setStatus "cancelled" q.2) else q)⟩) := by
        simp only [cancel_order, hf]
        rw [if_pos hst]
      have hfind : ∀ k, ((s.orders.map (fun q => if q.1 = oid then
          (q.1, setStatus "cancelled" q.2) else q)).find?
            (fun q => q.1 = k)) =
          (s.orders.find? (fun q => q.1 = k)).map (fun q =>
            if q.1 = oid then (q.1, setStatus "cancelled" q.2) else q) :=
        fun k => find?_key_map_update s.orders oid k (setStatus "cancelled")
      refine ⟨?_, ?_, ?_, ?_⟩
      · rw [hc, hg]
        exact ⟨fun _ => ⟨p.2, rfl, hst⟩, fun _ => rfl⟩
      · rw [hc]
        intro h
        exact absurd h (by simp)
      · intro _
        refine ⟨?_, ?_, ?_⟩
        · rw [hc, hg]
          simp only [get_order_status]
          rw [hfind oid, hf]
          simp [hpk]
        · intro k hk
          rw [hc]
          simp only [get_order_status]
          rw [hfind k]
          cases hk2 : s.orders.find? (fun q => q.1 = k) with
          | none => rfl
          | some q =>
            have hqk : q.1 = k := by simpa using List.find?_some hk2
            have hqo : ¬ q.1 = oid := by rw [hqk]; exact hk
            simp [hqo]
        · rw [hc]
          have hf2 : ((s.orders.map (fun q => if q.1 = oid then
              (q.1, setStatus "cancelled" q.2) else q)).find?
                (fun q => q.1 = oid)) =
              some (oid, setStatus "cancelled" p.2) := by
            rw [hfind oid, hf]
            simp [hpk]
          have hne : ¬((("cancelled" : String) = "created") ∨
              (("cancelled" : String) = "processing")) := by decide
          simp only [cancel_order]
          rw [hf2]
          simp [setStatus, hne]
      · intro o ho hdel
        rw [hg] at ho
        have hop : o = p.2 := by injection ho.symm
        rw [hop] at hdel
        rcases hst with h1 | h1 <;> rw [hdel] at h1 <;>
          exact absurd h1 (by decide)
    · -- the ineligible case: the cancel fails and nothing changes
      have hc : cancel_order s oid = (false, s) := by
        simp only [cancel_order, hf]
        rw [if_neg hst]
      refine ⟨?_, ?_, ?_, ?_⟩
      · rw [hc, hg]
        constructor
        · intro h; exact absurd h (by simp)
        · rintro ⟨o, ho, hso⟩
          have hop : o = p.2 := by injection ho.symm
          rw [hop] at hso
          exact absurd hso hst
      · intro _; rw [hc]
      · rw [hc]
        intro h
        exact absurd h (by simp)
      · intro o ho hdel
        rw [hc]

/-- A `foldr max 0` over integers is nonnegative. -/
theorem foldr_max_nonneg (l : List Int) : 0 ≤ l.foldr max 0 := by
  induction l with
  | nil => exact le_refl 0
  | cons a t ih => exact le_trans ih (le_max_right a _)

/-- The running-maximum loop of `_calculate_estimated_time`, started from a
nonnegative accumulator, computes the max of the accumulator with the spec's
per-item maximum. -/
theorem itemsTimeLoop_aux (items : List OrderItem) (a : Int) (ha : 0 ≤ a) :
    items.foldl
      (fun acc oi =>
        match menu_items.find? (fun m => m.id = oi.menu_item_id) with
        | some m => max acc m.preparation_minutes
        | none => acc) a = max a (specItemsTime items) := by
  induction items generalizing a with
  | nil => simp [specItemsTime, max_eq_left ha]
  | cons oi t ih =>
    rw [List.foldl_cons]
    cases hfind : menu_items.find? (fun m => m.id = oi.menu_item_id) with
    | some m =>
      rw [ih (max a m.preparation_minutes)
        (le_trans ha (le_max_left a _))]
      simp only [specItemsTime, List.map_cons, List.foldr_cons, hfind]
      rw [max_assoc]
    | none =>
      rw [ih a ha]
      simp only [specItemsTime, List.map_cons, List.foldr_cons, hfind]
      rw [max_eq_right (foldr_max_nonneg _)]

/-- The loop of `_calculate_estimated_time` computes the spec's
`itemsTime`: the slowest referenced item dominates, a missing entry
contributing 0. -/
theorem itemsTimeLoop_eq_spec (items : List OrderItem) :
    itemsTimeLoop items = specItemsTime items := by
  rw [itemsTimeLoop, itemsTimeLoop_aux items 0 (le_refl 0)]
  exact max_eq_right (by rw [specItemsTime]; exact foldr_max_nonneg _)

/-- C3: the estimate is 15 plus the max preparation time over referenced
menu entries (missing entries contributing 0) plus 5 per line item beyond
the first plus 25 for delivery, and it is a function of the line items and
the delivery flag alone (deterministic). -/
theorem c3_estimated_time (r : OrderRequest) :
    calculate_estimated_time r = 15 + specItemsTime r.items +
      5 * max 0 ((r.items.length : Int) - 1) +
      (if r.is_delivery then 25 else 0) ∧
    ∀ r2 : OrderRequest, r.items = r2.items →
      r.is_delivery = r2.is_delivery →
      calculate_estimated_time r = calculate_estimated_time r2 := by
  constructor
  · simp only [calculate_estimated_time, itemsTimeLoop_eq_spec]
    ring
  · intro r2 h1 h2
    simp only [calculate_estimated_time, h1, h2]

/-- C4: a request referencing a menu id absent from the catalog makes
`create_order` raise `ValueError` (before anything is priced), and the
store is left untouched. -/
theorem c4_unknown_menu_item (s : OrderService) (r : OrderRequest)
    (oid : String) (now : Nat)
    (h : ∃ i ∈ r.items, ∀ m ∈ menu_items, m.id ≠ i.menu_item_id) :
    create_order s r oid now =
      Except.error "Позиция отсутствует в меню" ∧
    step s (Op.create r oid now) = s := by
  obtain ⟨i, hi, hm⟩ := h
  have hall : r.items.all (fun oi => menu_items.any
      (fun m => m.id = oi.menu_item_id)) = false := by
    rw [List.all_eq_false]
    refine ⟨i, hi, ?_⟩
    simp only [List.any_eq_true, not_exists, not_and, decide_eq_true_eq]
    exact fun m hm2 => hm m hm2
  have hv : validate_menu_items r.items =
      Except.error "Позиция отсутствует в меню" := by
    rw [validate_menu_items, hall]
    rfl
  have hce : create_order s r oid now =
      Except.error "Позиция отсутствует в меню" := by
    simp only [create_order, hv]
  exact ⟨hce, by simp only [step, hce]⟩

/-- C4 at a concrete input: the spec's scenario, a request referencing the
nonexistent menu id 999, is rejected and the fresh store stays empty. -/
theorem c4_witness :
    create_order OrderService.init reqUnknownItem "ORD-1" 0 =
      Except.error "Позиция отсутствует в меню" ∧
    step OrderService.init (Op.create reqUnknownItem "ORD-1" 0) =
      OrderService.init :=
  c4_unknown_menu_item OrderService.init reqUnknownItem "ORD-1" 0
    (by decide)

/-- C5 (the delivery-address check is dead code): `reqNoAddr` has the
delivery flag set and no delivery address, yet it passes pydantic
validation and `create_order` accepts it — because `delivery_address` is
declared before `is_delivery`, `values.get('is_delivery')` is `None` when
`validate_delivery_address` runs (and the validator is skipped outright for
an absent field).  Had the validator seen `is_delivery = True` as intended,
it would have rejected (last conjunct). -/
theorem c5_delivery_address_unenforced :
    reqNoAddr.is_delivery = true ∧ reqNoAddr.delivery_address = none ∧
    validRequest reqNoAddr = true ∧
    (create_order OrderService.init reqNoAddr "ORD-1" 0).isOk = true ∧
    validate_delivery_address (some true) none = false :=
  ⟨rfl, rfl, by decide, by decide, rfl⟩

/-- C7: the order history for a phone is exactly the stored orders whose
customer phone matches that string, in insertion order (a sublist of the
store's value sequence), each match being exact, and the operation leaves
the store unchanged. -/
theorem c7_history (s : OrderService) (phone : String) :
    get_order_history s phone =
      (s.orders.filter (fun p => p.2.customer_phone = phone)).map
        (fun p => p.2) ∧
    (∀ o ∈ get_order_history s phone, o.customer_phone = phone) ∧
    (get_order_history s phone).Sublist (s.orders.map (fun p => p.2)) ∧
    step s (Op.history phone) = s := by
  refine ⟨?_, ?_, ?_, rfl⟩
  · rw [get_order_history, List.filter_map]
    rfl
  · intro o ho
    rw [get_order_history] at ho
    simpa using List.of_mem_filter ho
  · rw [get_order_history]
    exact List.filter_sublist _

/-- Membership after a Python dict assignment: every entry is the assigned
value or one of the old entries. -/
theorem mem_dictInsert (l : List (String × OrderResponse)) (k : String)
    (v : OrderResponse) (p : String × OrderResponse)
    (hp : p ∈ dictInsert l k v) : p.2 = v ∨ p ∈ l := by
  rw [dictInsert] at hp
  split at hp
  · obtain ⟨q, hq, hqe⟩ := List.mem_map.mp hp
    by_cases h : q.1 = k
    · left
      rw [← hqe]
      simp [h]
    · right
      rw [← hqe, if_neg h]
      exact hq
  · rcases List.mem_append.mp hp with h | h
    · right
      exact h
    · left
      rw [List.mem_singleton.mp h]

/-- One operation preserves the status invariant: `create_order` inserts
with status `"created"` and `cancel_order` only ever writes `"cancelled"`. -/
theorem step_preserves_statusInv (s : OrderService) (op : Op)
    (h : statusInv s) : statusInv (step s op) := by
  cases op with
  | create r oid now =>
    cases hco : create_order s r oid now with
    | error e =>
      intro p hp
      rw [step, hco] at hp
      exact h p hp
    | ok v =>
      obtain ⟨o, s2⟩ := v
      obtain ⟨-, -, hstat, -, -, -, -, -, -, -, -, -, -, -, hstore⟩ :=
        create_order_ok_shape s r oid now o s2 hco
      intro p hp
      rw [step, hco] at hp
      rw [hstore] at hp
      rcases mem_dictInsert s.orders oid o p hp with h2 | h2
      · left
        rw [h2, hstat]
      · exact h p h2
  | cancel oid =>
    cases hf : s.orders.find? (fun q => q.1 = oid) with
    | none =>
      have hc : cancel_order s oid = (false, s) := by
        rw [cancel_order, hf]
      intro p hp
      rw [step, hc] at hp
      exact h p hp
    | some q =>
      by_cases hst : q.2.status = "created" ∨ q.2.status = "processing"
      · have hc : cancel_order s oid =
            (true, ⟨s.orders.map (fun w => if w.1 = oid then
              (w.1, setStatus "cancelled" w.2) else w)⟩) := by
          simp only [cancel_order, hf]
          rw [if_pos hst]
        intro p hp
        rw [step, hc] at hp
        obtain ⟨w, hw, hwe⟩ := List.mem_map.mp hp
        by_cases hwk : w.1 = oid
        · rw [← hwe]
          simp only [hwk, if_pos]
          right
          rfl
        · rw [← hwe, if_neg hwk]
          exact h w hw
      · have hc : cancel_order s oid = (false, s) := by
          simp only [cancel_order, hf]
          rw [if_neg hst]
        intro p hp
        rw [step, hc] at hp
        exact h p hp
  | getStatus oid => exact h
  | getMenu c => exact h
  | history phone => exact h
  | pay oid amount method hex now => exact h

/-- A sequence of operations preserves the status invariant. -/
theorem run_preserves_statusInv (ops : List Op) (s : OrderService)
    (h : statusInv s) : statusInv (run ops s) := by
  induction ops generalizing s with
  | nil => exact h
  | cons op t ih => exact ih _ (step_preserves_statusInv s op h)

/-- C10: in every state reachable from the fresh service by public
operations, every stored order's status is `"created"` or `"cancelled"` —
the status-advancement hook is a no-op and nothing ever writes
`"processing"`, `"ready"` or `"delivered"`. -/
theorem c10_status_invariant (ops : List Op) :
    (∀ oid m, schedule_status_updates oid m = ()) ∧
    statusInv (run ops OrderService.init) := by
  refine ⟨fun _ _ => rfl, ?_⟩
  refine run_preserves_statusInv ops OrderService.init ?_
  intro p hp
  simp [OrderService.init] at hp

/-- Rounding to the nearest integer (ties to even) of a nonnegative
rational is nonnegative. -/
theorem roundHalfEven_nonneg (q : ℚ) (h : 0 ≤ q) : 0 ≤ roundHalfEven q := by
  rw [roundHalfEven]
  have hf : 0 ≤ ⌊q⌋ := Int.floor_nonneg.mpr h
  split_ifs <;> omega

/-- `round(x, 2)` of a nonnegative rational is nonnegative. -/
theorem round2_nonneg (q : ℚ) (h : 0 ≤ q) : 0 ≤ round2 q := by
  rw [round2]
  have h100 : (0 : ℚ) ≤ q * 100 := by positivity
  have := roundHalfEven_nonneg (q * 100) h100
  have hc : (0 : ℚ) ≤ (roundHalfEven (q * 100) : ℚ) := by exact_mod_cast this
  positivity

/-- A pydantic-valid item list has a nonnegative total (each unit price and
quantity is positive). -/
theorem items_total_nonneg (items : List OrderItem)
    (h : items.all validItem = true) : 0 ≤ calculate_items_total items := by
  rw [calculate_items_total]
  refine List.sum_nonneg ?_
  intro x hx
  obtain ⟨i, hi, hie⟩ := List.mem_map.mp hx
  have hv : validItem i = true := List.all_eq_true.mp h i hi
  rw [validItem] at hv
  simp only [Bool.and_eq_true, decide_eq_true_eq] at hv
  have hp : 0 < i.price := hv.2
  have hq : 0 < i.quantity := hv.1.1.2
  have hqq : (0 : ℚ) < (i.quantity : ℚ) := by exact_mod_cast hq
  rw [← hie]
  positivity

/-- The status write of `cancel_order` touches no monetary field, no line
item and no delivery flag. -/
theorem orderMoneyOk_setStatus (st : String) (o : OrderResponse)
    (h : orderMoneyOk o) : orderMoneyOk (setStatus st o) := h

/-- One operation whose inputs passed pydantic validation preserves the
monetary invariant. -/
theorem step_preserves_moneyInv (s : OrderService) (op : Op)
    (hop : opValid op = true) (h : moneyInv s) : moneyInv (step s op) := by
  cases op with
  | create r oid now =>
    cases hco : create_order s r oid now with
    | error e =>
      intro p hp
      rw [step, hco] at hp
      exact h p hp
    | ok v =>
      obtain ⟨o, s2⟩ := v
      obtain ⟨-, -, -, ht, hd, hfi, -, -, -, -, hitems, hdel, -, -, hstore⟩ :=
        create_order_ok_shape s r oid now o s2 hco
      have hval : r.items.all validItem = true := by
        rw [opValid, validRequest] at hop
        simp only [Bool.and_eq_true] at hop
        exact hop.1.1.2
      have hsub : (0 : ℚ) ≤ calculate_items_total r.items +
          (if r.is_delivery then delivery_fee_const else 0) := by
        have h1 := items_total_nonneg r.items hval
        have h2 : (0 : ℚ) ≤ (if r.is_delivery then delivery_fee_const
            else 0) := by
          split_ifs
          · rw [delivery_fee_const]; norm_num
          · exact le_refl 0
        linarith
      have hdisc_nonneg : ∀ q : ℚ, 0 ≤ q → 0 ≤ calculate_discount q := by
        intro q hq
        rw [calculate_discount, discount_percent]
        split_ifs
        · positivity
        · exact le_refl 0
      have hfinal_nonneg : ∀ q : ℚ, 0 ≤ q → 0 ≤ q - calculate_discount q := by
        intro q hq
        rw [calculate_discount, discount_percent]
        split_ifs
        · linarith
        · linarith
      have hmo : orderMoneyOk o := by
        rw [orderMoneyOk]
        rw [hitems, hdel, ht, hd, hfi]
        exact ⟨rfl, rfl, rfl, round2_nonneg _ (hdisc_nonneg _ hsub),
          round2_nonneg _ (hfinal_nonneg _ hsub)⟩
      intro p hp
      rw [step, hco] at hp
      rw [hstore] at hp
      rcases mem_dictInsert s.orders oid o p hp with h2 | h2
      · rw [h2]
        exact hmo
      · exact h p h2
  | cancel oid =>
    cases hf : s.orders.find? (fun q => q.1 = oid) with
    | none =>
      have hc : cancel_order s oid = (false, s) := by
        rw [cancel_order, hf]
      intro p hp
      rw [step, hc] at hp
      exact h p hp
    | some q =>
      by_cases hst : q.2.status = "created" ∨ q.2.status = "processing"
      · have hc : cancel_order s oid =
            (true, ⟨s.orders.map (fun w => if w.1 = oid then
              (w.1, setStatus "cancelled" w.2) else w)⟩) := by
          simp only [cancel_order, hf]
          rw [if_pos hst]
        intro p hp
        rw [step, hc] at hp
        obtain ⟨w, hw, hwe⟩ := List.mem_map.mp hp
        by_cases hwk : w.1 = oid
        · rw [← hwe]
          simp only [hwk, if_pos]
          exact orderMoneyOk_setStatus "cancelled" w.2 (h w hw)
        · rw [← hwe, if_neg hwk]
          exact h w hw
      · have hc : cancel_order s oid = (false, s) := by
          simp only [cancel_order, hf]
          rw [if_neg hst]
        intro p hp
        rw [step, hc] at hp
        exact h p hp
  | getStatus oid => exact h
  | getMenu c => exact h
  | history phone => exact h
  | pay oid amount method hex now => exact h

/-- A sequence of pydantic-validated operations preserves the monetary
invariant. -/
theorem run_preserves_moneyInv (ops : List Op) (s : OrderService)
    (hops : opsValid ops) (h : moneyInv s) : moneyInv (run ops s) := by
  induction ops generalizing s with
  | nil => exact h
  | cons op t ih =>
    refine ih _ (fun o ho => hops o (List.mem_cons_of_mem op ho))
      (step_preserves_moneyInv s op (hops op (List.mem_cons_self op t)) h)

/-- `create_order` on the fresh store, applied to `reqTie` (one item priced
1000.05): stored amounts are total 1000.05, discount 100.00 (100.005
rounded half-to-even), final 900.04 (900.045 rounded half-to-even). -/
theorem create_reqTie :
    create_order OrderService.init reqTie "ORD-1" 0 =
      Except.ok (respTie, ⟨[("ORD-1", respTie)]⟩) := by
  norm_num [create_order, validate_menu_items, calculate_items_total,
    calculate_discount, calculate_estimated_time, itemsTimeLoop, menu_items,
    delivery_fee_const, discount_threshold, discount_percent, round2,
    roundHalfEven, dictInsert, OrderService.init, reqTie, respTie]

/-- C6 counterexample: for the accepted request `reqTie` the STORED,
2-decimal-rounded fields violate `final = total - discount`:
900.04 ≠ 1000.05 - 100.00, because 100.005 and 900.045 round in the same
direction (half to even). -/
theorem c6_counterexample :
    validRequest reqTie = true ∧
    create_order OrderService.init reqTie "ORD-1" 0 =
      Except.ok (respTie, ⟨[("ORD-1", respTie)]⟩) ∧
    respTie.final_amount ≠ respTie.total_amount - respTie.discount_amount := by
  refine ⟨?_, create_reqTie, ?_⟩
  · have hp : (decide ((0 : ℚ) < 20001/20)) = true := by
      rw [decide_eq_true_eq]
      norm_num
    simp only [validRequest, reqTie, validItem, List.all_cons, List.all_nil,
      hp]
    decide
  · rw [respTie]
    norm_num

/-- C6 (amended): in every state reachable by pydantic-validated
operations, every stored order's rounded amounts are the 2-decimal
roundings of a pre-rounding subtotal, discount and final amount that
satisfy `final = subtotal - discount` EXACTLY, with the stored discount and
final amounts nonnegative; the invariant is preserved by every subsequent
operation (only `status` is ever mutated). -/
theorem c6_money_invariant (ops : List Op) (hops : opsValid ops) :
    moneyInv (run ops OrderService.init) := by
  refine run_preserves_moneyInv ops OrderService.init hops ?_
  intro p hp
  simp [OrderService.init] at hp

/-- C6 (amended) at a concrete input: creating `reqA` and then cancelling
it leaves a store satisfying the monetary invariant. -/
theorem c6_money_invariant_witness :
    moneyInv (run [Op.create reqA "ORD-1" 0, Op.cancel "ORD-1"]
      OrderService.init) :=
  c6_money_invariant [Op.create reqA "ORD-1" 0, Op.cancel "ORD-1"]
    (by simp only [opsValid]; decide)

/-- C8 counterexample: a failed payment (amount 0) returns a structured
result that does NOT contain the amount and method — the failure dict has
only `payment_id`, `status`, `error` and `transaction_time`. -/
theorem c8_counterexample :
    (process_payment "ORD-1" 0 "card" hexA 7).status = "failed" ∧
    (process_payment "ORD-1" 0 "card" hexA 7).error =
      some "Payment processing failed" ∧
    (process_payment "ORD-1" 0 "card" hexA 7).amount = none ∧
    (process_payment "ORD-1" 0 "card" hexA 7).payment_method = none := by
  have h0 : ¬ (0 : ℚ) < 0 := lt_irrefl 0
  refine ⟨?_, ?_, ?_, ?_⟩ <;>
    (simp only [process_payment]; rw [if_neg h0])

/-- C8 (amended): `process_payment` never raises (it is total) and never
touches the order store; the result's status is `"success"` exactly when
the amount is positive and `"failed"` otherwise, the `error` field is
present exactly on failure, the amount and method are echoed back in
SUCCESSFUL results only, a timestamp is always present, and the payment id
is `PAY-` followed by 8 characters, each a digit or an uppercase letter. -/
theorem c8_payment_result (oid : String) (amount : ℚ) (method : String)
    (uuid_hex : List Char) (now : Nat) (s : OrderService)
    (hlen : 8 ≤ uuid_hex.length)
    (hhex : ∀ c ∈ uuid_hex, c ∈ hexLowerChars) :
    ((process_payment oid amount method uuid_hex now).status = "success" ↔
      0 < amount) ∧
    ((process_payment oid amount method uuid_hex now).status = "failed" ↔
      ¬ 0 < amount) ∧
    ((process_payment oid amount method uuid_hex now).error =
      if 0 < amount then none else some "Payment processing failed") ∧
    ((process_payment oid amount method uuid_hex now).amount =
      if 0 < amount then some amount else none) ∧
    ((process_payment oid amount method uuid_hex now).payment_method =
      if 0 < amount then some method else none) ∧
    (process_payment oid amount method uuid_hex now).transaction_time =
      now ∧
    (∃ suf : String,
      (process_payment oid amount method uuid_hex now).payment_id =
        "PAY-" ++ suf ∧ suf.length = 8 ∧
      ∀ c ∈ suf.data, c.isDigit ∨ c.isUpper) ∧
    step s (Op.pay oid amount method uuid_hex now) = s := by
  have hid : ∀ c0 ∈ hexLowerChars,
      (Char.toUpper c0).isDigit ∨ (Char.toUpper c0).isUpper := by decide
  have hsuf : ∃ suf : String,
      ("PAY-" ++ String.mk ((uuid_hex.take 8).map Char.toUpper) =
        "PAY-" ++ suf) ∧ suf.length = 8 ∧
      ∀ c ∈ suf.data, c.isDigit ∨ c.isUpper := by
    refine ⟨String.mk ((uuid_hex.take 8).map Char.toUpper), rfl, ?_, ?_⟩
    · show ((uuid_hex.take 8).map Char.toUpper).length = 8
      rw [List.length_map, List.length_take]
      omega
    · intro c hc
      obtain ⟨c0, hc0, hce⟩ := List.mem_map.mp hc
      rw [← hce]
      exact hid c0 (hhex c0 (List.mem_of_mem_take hc0))
  by_cases h : 0 < amount
  · have hres : process_payment oid amount method uuid_hex now =
        { payment_id :=
            "PAY-" ++ String.mk ((uuid_hex.take 8).map Char.toUpper),
          status := "success", amount := some amount,
          payment_method := some method, error := none,
          transaction_time := now } := by
      simp only [process_payment, if_pos h]
    rw [hres, if_pos h, if_pos h, if_pos h]
    exact ⟨iff_of_true rfl h,
      iff_of_false (show ¬("success" : String) = "failed" from by decide)
        (not_not_intro h), rfl, rfl, rfl, rfl, hsuf, rfl⟩
  · have hres : process_payment oid amount method uuid_hex now =
        { payment_id :=
            "PAY-" ++ String.mk ((uuid_hex.take 8).map Char.toUpper),
          status := "failed", amount := none, payment_method := none,
          error := some "Payment processing failed",
          transaction_time := now } := by
      simp only [process_payment, if_neg h]
    rw [hres, if_neg h, if_neg h, if_neg h]
    exact ⟨iff_of_false (show ¬("failed" : String) = "success" from
        by decide) h, iff_of_true rfl h,
      rfl, rfl, rfl, rfl, hsuf, rfl⟩

/-- C8 (amended) at a concrete input: a 500.00 card payment with a fixed
UUID succeeds with the amount and method echoed back. -/
theorem c8_payment_result_witness :
    ((process_payment "ORD-1" 500 "card" hexA 7).status = "success" ↔
      (0 : ℚ) < 500) ∧
    ((process_payment "ORD-1" 500 "card" hexA 7).status = "failed" ↔
      ¬ (0 : ℚ) < 500) ∧
    ((process_payment "ORD-1" 500 "card" hexA 7).error =
      if (0 : ℚ) < 500 then none else some "Payment processing failed") ∧
    ((process_payment "ORD-1" 500 "card" hexA 7).amount =
      if (0 : ℚ) < 500 then some 500 else none) ∧
    ((process_payment "ORD-1" 500 "card" hexA 7).payment_method =
      if (0 : ℚ) < 500 then some "card" else none) ∧
    (process_payment "ORD-1" 500 "card" hexA 7).transaction_time = 7 ∧
    (∃ suf : String,
      (process_payment "ORD-1" 500 "card" hexA 7).payment_id =
        "PAY-" ++ suf ∧ suf.length = 8 ∧
      ∀ c ∈ suf.data, c.isDigit ∨ c.isUpper) ∧
    step OrderService.init
      (Op.pay "ORD-1" 500 "card" hexA 7) = OrderService.init :=
  c8_payment_result "ORD-1" 500 "card" hexA 7 OrderService.init
    (by decide) (by decide)

/-- `create_order` on the fresh store, applied to `reqWrongName` (item 101
under a name that is not the catalog's): the request is accepted and the
mismatched name stored verbatim. -/
theorem create_reqWrongName :
    create_order OrderService.init reqWrongName "ORD-1" 0 =
      Except.ok (respWrongName, ⟨[("ORD-1", respWrongName)]⟩) := by
  norm_num [create_order, validate_menu_items, calculate_items_total,
    calculate_discount, calculate_estimated_time, itemsTimeLoop, menu_items,
    delivery_fee_const, discount_threshold, discount_percent, round2,
    roundHalfEven, dictInsert, OrderService.init, reqWrongName,
    respWrongName]

/-- C9 counterexample: a pydantic-valid request whose line item references
menu id 101 under the name "Совсем не пицца" is accepted by `create_order`
and stored with that name, which does not match the catalog name
"Пицца Маргарита" of item 101. -/
theorem c9_counterexample :
    validRequest reqWrongName = true ∧
    create_order OrderService.init reqWrongName "ORD-1" 0 =
      Except.ok (respWrongName, ⟨[("ORD-1", respWrongName)]⟩) ∧
    ¬ itemNamesMatchCatalog respWrongName.items := by
  refine ⟨by decide, create_reqWrongName, ?_⟩
  simp only [itemNamesMatchCatalog]
  decide

/-- C9 (amended): `create_order` stores the request's line items verbatim —
names included, with no check against the catalog — validating only that
each referenced menu id exists. -/
theorem c9_items_verbatim (s : OrderService) (r : OrderRequest)
    (oid : String) (now : Nat) (o : OrderResponse) (s2 : OrderService)
    (h : create_order s r oid now = Except.ok (o, s2)) :
    o.items = r.items ∧
    ∀ i ∈ r.items, ∃ m ∈ menu_items, m.id = i.menu_item_id := by
  obtain ⟨hv, -, -, -, -, -, -, -, -, -, hitems, -⟩ :=
    create_order_ok_shape s r oid now o s2 h
  refine ⟨hitems, ?_⟩
  rw [validate_menu_items] at hv
  split at hv
  case isTrue hall =>
    intro i hi
    have := List.all_eq_true.mp hall i hi
    simp only [List.any_eq_true, decide_eq_true_eq] at this
    exact this
  case isFalse hall => exact absurd hv (by simp)

/-- C9 (amended) at a concrete input: the `reqWrongName` order stores the
request's items verbatim while item 101 does exist in the catalog. -/
theorem c9_items_verbatim_witness :
    respWrongName.items = reqWrongName.items ∧
    ∀ i ∈ reqWrongName.items, ∃ m ∈ menu_items, m.id = i.menu_item_id :=
  c9_items_verbatim OrderService.init reqWrongName "ORD-1" 0 respWrongName
    ⟨[("ORD-1", respWrongName)]⟩ create_reqWrongName
